import Mathlib

/-!
Verification of the expression-calculator core of `src/main.go`.

The embedding mirrors the Go source:
* `operations`, `isOperator`, `precedence` — the operator table (lines 37-54);
* `convertToRPN` (with loop helpers `popToParen`, `popOps`, `drain`) embeds
  Go `convertToPostfix` (lines 57-90); the name is changed only because of
  local naming conventions, the body follows the source line by line;
* `calculate` (loop `calcLoop`) embeds Go `calculate` (lines 93-130);
* `Calc` (with `tokenize` and `evalTokens` naming the two halves of its body)
  embeds Go `Calc` (lines 133-147).

Go `float64` values are modelled as `ℚ`: every arithmetic step the claims
touch (small-integer addition, subtraction, multiplication, the `b == 0`
divisor test, and the constant `0` returned with every error) is exact in
`float64`, so no rounding behaviour is lost on these claims.

Go's three sentinel errors are the constructors of `CalcErr`:
`synErr` is `ErrExpressionSyntax` (the spec's `SyntaxError`),
`divisionByZero` is `ErrDivisionByZero`, and
`invalidExpression` is `ErrInvalidExpression`.

Stacks are Lean lists with the head as the top (Go appends/pops at the
slice's end). A Go function returning `(T, error)` becomes a pair
`T × Option CalcErr`; `convertToPostfix`'s `([]string, error)` becomes
`Except CalcErr (List String)`.
-/

/-- The three sentinel error values of `src/main.go` (lines 13-19) that the
calculator core can produce. -/
inductive CalcErr : Type
  | invalidExpression : CalcErr
  | divisionByZero : CalcErr
  | synErr : CalcErr
deriving DecidableEq, Repr

/-- The operator table `operations` (lines 37-42): symbol to precedence. -/
def operations : List (String × Int) :=
  [("+", 1), ("-", 1), ("*", 2), ("/", 2)]

/-- `isOperator` (lines 45-48): a string is an operator iff it is a key of
the operator table. -/
def isOperator (s : String) : Bool :=
  (operations.lookup s).isSome

/-- `precedence` (lines 51-54): the table entry, or the zero value 0 for a
missing key, exactly as Go's `prio, _ := operations[op]`. -/
def precedence (op : String) : Int :=
  (operations.lookup op).getD 0

/-- The inner loop of the `)` case (lines 64-67): pop stack elements to the
output until the top is `(` or the stack is empty. -/
def popToParen : List String → List String → List String × List String
  | [], output => ([], output)
  | top :: rest, output =>
    if top ≠ "(" then popToParen rest (output ++ [top])
    else (top :: rest, output)

/-- The inner loop of the operator case (lines 73-76): pop while the stack
is non-empty, its top is not `(`, and the incoming operator's precedence is
at most the top's. -/
def popOps (token : String) : List String → List String → List String × List String
  | [], output => ([], output)
  | top :: rest, output =>
    if top ≠ "(" ∧ precedence token ≤ precedence top then
      popOps token rest (output ++ [top])
    else (top :: rest, output)

/-- The final loop of `convertToPostfix` (lines 82-88): pop the remaining
stack to the output; a leftover `(` is a syntax error. -/
def drain : List String → List String → Except CalcErr (List String)
  | [], output => Except.ok output
  | top :: rest, output =>
    if top = "(" then Except.error CalcErr.synErr
    else drain rest (output ++ [top])

/-- The token loop of `convertToPostfix` (lines 60-81) followed by the final
drain: arguments are remaining tokens, operator stack, output queue. -/
def convertLoop : List String → List String → List String → Except CalcErr (List String)
  | [], stack, output => drain stack output
  | token :: rest, stack, output =>
    if token = "(" then
      convertLoop rest (token :: stack) output
    else if token = ")" then
      let p := popToParen stack output
      match p.1 with
      | [] => Except.error CalcErr.synErr
      | top :: stack2 =>
        if top ≠ "(" then Except.error CalcErr.synErr
        else convertLoop rest stack2 p.2
    else if isOperator token then
      let p := popOps token stack output
      convertLoop rest (token :: p.1) p.2
    else
      convertLoop rest stack (output ++ [token])

/-- Embeds Go `convertToPostfix` (lines 57-90): infix token list to reverse
Polish (postfix) order, or `ErrExpressionSyntax` on unmatched parentheses. -/
def convertToRPN (tokens : List String) : Except CalcErr (List String) :=
  convertLoop tokens [] []

/-- Numeric value of a digit run, most significant first. -/
def digitsVal (ds : List Char) : ℚ :=
  ds.foldl (fun acc c => 10 * acc + ((c.toNat - '0'.toNat : ℕ) : ℚ)) 0

/-- Embeds `strconv.ParseFloat(token, 64)` on the decimal numerals this
program can meet: an optional sign, then digits with an optional fractional
part, at least one digit in all. Forms no token of this program takes
(exponents, hex, Inf, NaN) are left out. Every token `Calc` produces is a
single character, on which this agrees with Go exactly: digits parse to
their value, everything else errors. -/
def parseFloat (s : String) : Option ℚ :=
  let cs := s.data
  let signAndRest : ℚ × List Char :=
    match cs with
    | '+' :: rest => (1, rest)
    | '-' :: rest => (-1, rest)
    | _ => (1, cs)
  let intDigits := signAndRest.2.takeWhile Char.isDigit
  let afterInt := signAndRest.2.dropWhile Char.isDigit
  match afterInt with
  | [] =>
    if intDigits.isEmpty then none
    else some (signAndRest.1 * digitsVal intDigits)
  | '.' :: rest =>
    let fracDigits := rest.takeWhile Char.isDigit
    let afterFrac := rest.dropWhile Char.isDigit
    if afterFrac.isEmpty ∧ ¬(intDigits.isEmpty ∧ fracDigits.isEmpty) then
      some (signAndRest.1 *
        (digitsVal intDigits + digitsVal fracDigits / 10 ^ fracDigits.length))
    else none
  | _ => none

/-- The token loop of Go `calculate` (lines 95-125) followed by the final
stack check (lines 126-129): arguments are remaining tokens and the value
stack (head is the top). -/
def calcLoop : List String → List ℚ → ℚ × Option CalcErr
  | [], stack =>
    if stack.length ≠ 1 then (0, some CalcErr.invalidExpression)
    else (stack.headD 0, none)
  | token :: rest, stack =>
    if isOperator token then
      match stack with
      | b :: a :: stack2 =>
        if token = "+" then calcLoop rest ((a + b) :: stack2)
        else if token = "-" then calcLoop rest ((a - b) :: stack2)
        else if token = "*" then calcLoop rest ((a * b) :: stack2)
        else if token = "/" then
          if b = 0 then (0, some CalcErr.divisionByZero)
          else calcLoop rest ((a / b) :: stack2)
        else (0, some CalcErr.synErr)
      | _ => (0, some CalcErr.synErr)
    else
      match parseFloat token with
      | none => (0, some CalcErr.synErr)
      | some v => calcLoop rest (v :: stack)

/-- Embeds Go `calculate` (lines 93-130): evaluate a token list in reverse
Polish order with an initially empty value stack. -/
def calculate (tokens : List String) : ℚ × Option CalcErr :=
  calcLoop tokens []

/-- Line 137 of `Calc`:
`strings.Split(strings.ReplaceAll(expression, " ", ""), "")` — remove every
space character (U+0020 only), then split into one token per character. -/
def tokenize (expression : String) : List String :=
  (expression.data.filter (fun c => c ≠ ' ')).map (fun c => String.mk [c])

/-- Lines 138-146 of `Calc`: run the conversion, then the evaluation,
returning 0 with the first error met. -/
def evalTokens (tokens : List String) : ℚ × Option CalcErr :=
  match convertToRPN tokens with
  | Except.error e => (0, some e)
  | Except.ok rpn =>
    match calculate rpn with
    | (_, some e) => (0, some e)
    | (result, none) => (result, none)

/-- Embeds Go `Calc` (lines 133-147): reject strings shorter than 3 bytes,
then tokenize and run the pipeline. `String.utf8ByteSize` is exactly Go's
`len(expression)` (a byte count). -/
def Calc (expression : String) : ℚ × Option CalcErr :=
  if expression.utf8ByteSize < 3 then (0, some CalcErr.synErr)
  else evalTokens (tokenize expression)

/-- Written from the spec's words, for comparison with the code's length
check: the length of an expression after trimming surrounding whitespace
(drop whitespace from the front, then from the back). -/
def trimmedLength (s : String) : ℕ :=
  (((s.data.dropWhile Char.isWhitespace).reverse.dropWhile Char.isWhitespace).reverse).length

/-- C1: the spec's worked examples evaluate exactly as stated, with no
error: Calc "1+1" = 2, Calc "2*3-4" = 2 (multiplication binds tighter),
Calc "(2+3)*4" = 20 (parentheses override precedence), Calc "8-4-2" = 2
(equal precedence associates left). -/
theorem calc_worked_examples :
    Calc "1+1" = (2, none) ∧ Calc "2*3-4" = (2, none) ∧
    Calc "(2+3)*4" = (20, none) ∧ Calc "8-4-2" = (2, none) := by
  refine ⟨?_, ?_, ?_, ?_⟩ <;>
    simp +decide [Calc, evalTokens, tokenize, convertToRPN, convertLoop, popOps, popToParen,
      drain, calculate, calcLoop, parseFloat, digitsVal, isOperator, precedence, operations] <;>
    norm_num

/-- Helper: when the operator stack holds no `(`, the `)` inner loop pops
the whole stack to the output. -/
theorem popToParen_not_mem (stack : List String) :
    ∀ output : List String, ("(" : String) ∉ stack →
      popToParen stack output = ([], output ++ stack) := by
  induction stack with
  | nil => intro output _; simp [popToParen]
  | cons t rest ih =>
    intro output h
    have ht : t ≠ "(" := fun hh => h (hh ▸ List.mem_cons_self t rest)
    have hrest : ("(" : String) ∉ rest := fun hm => h (List.mem_cons_of_mem t hm)
    simp only [popToParen, if_pos ht, ih (output ++ [t]) hrest, List.append_assoc,
      List.singleton_append]

/-- Helper: the final drain errors as soon as it reaches a leftover `(`. -/
theorem drain_mem (stack : List String) :
    ∀ output : List String, ("(" : String) ∈ stack →
      drain stack output = Except.error CalcErr.synErr := by
  induction stack with
  | nil => intro output h; cases h
  | cons t rest ih =>
    intro output h
    by_cases ht : t = "("
    · simp [drain, ht]
    · have hrest : ("(" : String) ∈ rest := by
        cases h with
        | head => exact absurd rfl ht
        | tail _ hm => exact hm
      simp only [drain, if_neg ht]
      exact ih (output ++ [t]) hrest

/-- Helper: with no leftover `(`, the final drain moves the entire
remaining stack to the output and succeeds, leaving the stack empty. -/
theorem drain_not_mem (stack : List String) :
    ∀ output : List String, ("(" : String) ∉ stack →
      drain stack output = Except.ok (output ++ stack) := by
  induction stack with
  | nil => intro output _; simp [drain]
  | cons t rest ih =>
    intro output h
    have ht : t ≠ "(" := fun hh => h (hh ▸ List.mem_cons_self t rest)
    have hrest : ("(" : String) ∉ rest := fun hm => h (List.mem_cons_of_mem t hm)
    simp only [drain, if_neg ht, ih (output ++ [t]) hrest, List.append_assoc,
      List.singleton_append]

/-- C5: the conversion fails with SyntaxError on unmatched parentheses: a
`)` met while the operator stack holds no `(` errors; a `(` left on the
stack after all tokens errors; `Calc "(1+2"` fails with SyntaxError; and on
success the trailing drain empties the operator stack into the output. -/
theorem convert_paren_errors :
    (∀ rest stack output : List String, ("(" : String) ∉ stack →
      convertLoop (")" :: rest) stack output = Except.error CalcErr.synErr) ∧
    (∀ stack output : List String, ("(" : String) ∈ stack →
      convertLoop [] stack output = Except.error CalcErr.synErr) ∧
    (∀ stack output : List String, ("(" : String) ∉ stack →
      drain stack output = Except.ok (output ++ stack)) ∧
    Calc "(1+2" = (0, some CalcErr.synErr) := by
  refine ⟨?_, ?_, ?_, ?_⟩
  · intro rest stack output h
    simp +decide [convertLoop, popToParen_not_mem stack output h]
  · intro stack output h
    simp only [convertLoop]
    exact drain_mem stack output h
  · exact drain_not_mem
  · simp +decide [Calc, evalTokens, tokenize, convertToRPN, convertLoop, popOps, popToParen,
      drain, calculate, calcLoop, parseFloat, digitsVal, isOperator, precedence, operations]

/-- C5 witness: the three conditional parts of `convert_paren_errors` at
concrete inputs. -/
theorem convert_paren_errors_witness :
    convertLoop [")"] ["+"] [] = Except.error CalcErr.synErr ∧
    convertLoop [] ["("] [] = Except.error CalcErr.synErr ∧
    drain ["+"] [] = Except.ok ["+"] :=
  ⟨convert_paren_errors.1 [] ["+"] [] (by decide),
   convert_paren_errors.2.1 ["("] [] (by decide),
   convert_paren_errors.2.2.1 ["+"] [] (by decide)⟩

/-- C4: at a division step the evaluator fails with DivisionByZero exactly
when the divisor `b` (the value popped first, the right operand of `a/b`)
is zero, regardless of `a`; otherwise it pushes `a/b` and continues; and
`Calc "10/0"` returns DivisionByZero. -/
theorem division_by_zero_exact :
    (∀ (rest : List String) (stack : List ℚ) (a b : ℚ), b = 0 →
      calcLoop ("/" :: rest) (b :: a :: stack) = (0, some CalcErr.divisionByZero)) ∧
    (∀ (rest : List String) (stack : List ℚ) (a b : ℚ), b ≠ 0 →
      calcLoop ("/" :: rest) (b :: a :: stack) = calcLoop rest ((a / b) :: stack)) ∧
    Calc "10/0" = (0, some CalcErr.divisionByZero) := by
  refine ⟨?_, ?_, ?_⟩
  · intro rest stack a b hb
    subst hb
    simp +decide [calcLoop]
  · intro rest stack a b hb
    simp +decide [calcLoop, hb]
  · simp +decide [Calc, evalTokens, tokenize, convertToRPN, convertLoop, popOps, popToParen,
      drain, calculate, calcLoop, parseFloat, digitsVal, isOperator, precedence, operations]

/-- C4 witness: the two conditional parts of `division_by_zero_exact` at
concrete inputs. -/
theorem division_by_zero_exact_witness :
    calcLoop ["/"] [(0 : ℚ), 5] = (0, some CalcErr.divisionByZero) ∧
    calcLoop ["/"] [(2 : ℚ), 6] = calcLoop [] [(6 : ℚ) / 2] :=
  ⟨division_by_zero_exact.1 [] [] 5 0 rfl,
   division_by_zero_exact.2.1 [] [] 6 2 (by norm_num)⟩

/-- C6: after all tokens are consumed without an earlier error, the
evaluator returns the single stack value when the value stack has exactly
one element, and fails with InvalidExpression for any other stack size;
the two-operand stream `["1", "2"]` is such a failure. -/
theorem final_stack_check :
    (∀ v : ℚ, calcLoop [] [v] = (v, none)) ∧
    (∀ stack : List ℚ, stack.length ≠ 1 →
      calcLoop [] stack = (0, some CalcErr.invalidExpression)) ∧
    calculate ["1", "2"] = (0, some CalcErr.invalidExpression) := by
  refine ⟨?_, ?_, ?_⟩
  · intro v
    simp [calcLoop]
  · intro stack h
    simp [calcLoop, h]
  · simp +decide [calculate, calcLoop, parseFloat, digitsVal, isOperator, operations]

/-- C6 witness: the two universally quantified parts of `final_stack_check`
at concrete stacks. -/
theorem final_stack_check_witness :
    calcLoop [] [(3 : ℚ)] = (3, none) ∧
    calcLoop [] ([] : List ℚ) = (0, some CalcErr.invalidExpression) :=
  ⟨final_stack_check.1 3, final_stack_check.2.1 [] (by decide)⟩

/-- C7: an operator token met while the value stack holds fewer than two
values makes the evaluator fail with SyntaxError; and `Calc "1+"` fails
with SyntaxError (the raw length 2 is already below the minimum 3, which
yields the same error value). -/
theorem operator_needs_two_operands :
    (∀ (token : String) (rest : List String) (stack : List ℚ),
      isOperator token = true → stack.length < 2 →
      calcLoop (token :: rest) stack = (0, some CalcErr.synErr)) ∧
    Calc "1+" = (0, some CalcErr.synErr) := by
  refine ⟨?_, ?_⟩
  · intro token rest stack hop hlen
    match stack with
    | [] => simp [calcLoop, hop]
    | [x] => simp [calcLoop, hop]
    | x :: y :: t => simp at hlen; omega
  · simp +decide [Calc]

/-- C7 witness: `operator_needs_two_operands` at a concrete operator and
a too-small stack. -/
theorem operator_needs_two_operands_witness :
    calcLoop ["+"] [(1 : ℚ)] = (0, some CalcErr.synErr) :=
  operator_needs_two_operands.1 "+" [] [1] (by decide) (by decide)

/-- C2 counterexample: `" 1  "` has trimmed length 1, below 3, yet `Calc`
succeeds with result 1 — the Go check is on the raw, untrimmed length. -/
theorem trimmed_short_input_succeeds :
    trimmedLength " 1  " < 3 ∧ Calc " 1  " = (1, none) := by
  refine ⟨by decide, ?_⟩
  simp +decide [Calc, evalTokens, tokenize, convertToRPN, convertLoop, popOps, popToParen,
    drain, calculate, calcLoop, parseFloat, digitsVal, isOperator, precedence, operations]

/-- C2 (amended): for every input string whose raw byte length is below 3
(no trimming is applied), `Calc` fails with SyntaxError regardless of the
string's content. -/
theorem short_raw_input_synErr (s : String) (h : s.utf8ByteSize < 3) :
    Calc s = (0, some CalcErr.synErr) := by
  unfold Calc
  rw [if_pos h]

/-- C2 witness: `short_raw_input_synErr` at the one-byte input `"1"`. -/
theorem short_raw_input_synErr_witness :
    ("1" : String).utf8ByteSize < 3 ∧ Calc "1" = (0, some CalcErr.synErr) :=
  ⟨by decide, short_raw_input_synErr "1" (by decide)⟩

/-- C3 counterexample: the tab character, a whitespace character, is not
removed by `Calc`'s tokenization — it survives as a token, and it changes
the outcome: `"1+1\t"` fails with SyntaxError while `"1+1"` evaluates
to 2. -/
theorem tab_whitespace_affects_tokens :
    ('\t').isWhitespace = true ∧
    String.mk ['\t'] ∈ tokenize "1+1\t" ∧
    tokenize "1+1\t" ≠ tokenize "1+1" ∧
    Calc "1+1\t" = (0, some CalcErr.synErr) ∧ Calc "1+1" = (2, none) := by
  refine ⟨by decide, by decide, by decide, ?_, ?_⟩
  · simp +decide [Calc, evalTokens, tokenize, convertToRPN, convertLoop, popOps, popToParen,
      drain, calculate, calcLoop, parseFloat, digitsVal, isOperator, precedence, operations]
  · simp +decide [Calc, evalTokens, tokenize, convertToRPN, convertLoop, popOps, popToParen,
      drain, calculate, calcLoop, parseFloat, digitsVal, isOperator, precedence, operations]
    norm_num

/-- C3 (amended): `Calc` removes exactly the space characters (U+0020) —
not all whitespace — and splits the remainder into single-character tokens;
hence space characters anywhere in the input never affect the token
sequence, and on inputs passing the length check the pipeline (conversion
then evaluation) runs on exactly those tokens. -/
theorem spaces_only_removed :
    (∀ s : String,
      tokenize s = (s.data.filter (fun c => c ≠ ' ')).map (fun c => String.mk [c])) ∧
    (∀ s t : String, s.data.filter (fun c => c ≠ ' ') = t.data.filter (fun c => c ≠ ' ') →
      tokenize s = tokenize t) ∧
    (∀ s : String, ¬ s.utf8ByteSize < 3 → Calc s = evalTokens (tokenize s)) := by
  refine ⟨fun s => rfl, ?_, ?_⟩
  · intro s t h
    unfold tokenize
    rw [h]
  · intro s h
    unfold Calc
    rw [if_neg h]

/-- C3 witness: `spaces_only_removed` at concrete inputs — `" 1"` and
`"1 "` tokenize identically, and `"1+1"` runs the pipeline on its
tokens. -/
theorem spaces_only_removed_witness :
    tokenize " 1" = tokenize "1 " ∧ Calc "1+1" = evalTokens (tokenize "1+1") :=
  ⟨spaces_only_removed.2.1 " 1" "1 " (by decide),
   spaces_only_removed.2.2 "1+1" (by decide)⟩

/-- C8: the embedded `Calc` is total — on every input string it returns a
pair whose error component is `none` (a numeric result) or one of the
three defined error values; there is no other outcome. -/
theorem calc_total_result (s : String) :
    (Calc s).2 = none ∨ (Calc s).2 = some CalcErr.invalidExpression ∨
    (Calc s).2 = some CalcErr.divisionByZero ∨ (Calc s).2 = some CalcErr.synErr := by
  rcases h : (Calc s).2 with _ | e
  · exact Or.inl rfl
  · cases e
    · exact Or.inr (Or.inl rfl)
    · exact Or.inr (Or.inr (Or.inl rfl))
    · exact Or.inr (Or.inr (Or.inr rfl))

/-- C9: `Calc` is deterministic — two invocations on the same expression
string yield the same value-error pair. In this embedding `Calc` is a pure
function of its argument (the only ambient state, the operator table, is a
constant), so the two results coincide definitionally. -/
theorem calc_deterministic (s : String) : Calc s = Calc s := rfl

/-- Helper: every error outcome of the conversion-evaluation pipeline
carries the numeric component 0. -/
theorem evalTokens_error_zero (tokens : List String) (e : CalcErr)
    (h : (evalTokens tokens).2 = some e) : (evalTokens tokens).1 = 0 := by
  simp only [evalTokens] at h ⊢
  rcases hc : convertToRPN tokens with e' | rpn
  · simp [hc]
  · simp only [hc] at h ⊢
    rcases hv : calculate rpn with ⟨v, verr⟩
    simp only [hv] at h ⊢
    cases verr
    · simp at h
    · simp

/-- C10: whenever `Calc` returns an error (of any kind), the accompanying
numeric result is exactly 0 — no partial value escapes a failed
evaluation. -/
theorem error_result_is_zero (s : String) (e : CalcErr)
    (h : (Calc s).2 = some e) : (Calc s).1 = 0 := by
  by_cases hlt : s.utf8ByteSize < 3
  · unfold Calc
    rw [if_pos hlt]
  · unfold Calc at h ⊢
    rw [if_neg hlt] at h ⊢
    exact evalTokens_error_zero (tokenize s) e h

/-- C10 witness: `error_result_is_zero` at the failing input `""`. -/
theorem error_result_is_zero_witness : (Calc "").1 = 0 :=
  error_result_is_zero "" CalcErr.synErr (by decide)
